import Mathlib

/-!
# Shallow embedding of the qa-api repository core

This file embeds the data model (`src/models.py`), the seed/reset engine
(`src/seed.py`, `src/routers/admin.py`) and the route handlers of
`src/routers/{orders,users,products,categories,auth}.py` as executable Lean
definitions, and proves the specification claims about them.

Modelling conventions:
- A database state is a record of four row lists (the four ORM tables).
- SQLAlchemy autoincrement primary keys are modelled as `max id + 1`.
- Python `float` prices are modelled as exact amounts of cents (`Nat`):
  every price in the program is a non-negative two-decimal literal, and the
  spec treats price sums as exact snapshots, so the cent scaling is a
  faithful exact-decimal reading of the `Float` columns.
- Each `raise HTTPException(status, detail)` is a distinct `ApiError`
  constructor; `ApiError.status` maps it back to the HTTP status code used
  in the source.  Pydantic request-body validation failures (HTTP 422) are
  the `validationError` constructor.
- FastAPI dependencies (`require_admin`, `require_tester`, `require_any`,
  `get_current_user`) run before the handler body; they are modelled as a
  role check at the top of each endpoint.  The module `src/auth.py` that
  defines them is not among the provided sources, so the role gates, the
  password hash and the token constructor are modelled from the spec
  (sections 4.1 and 4.2); each such definition is marked in its comment.
- Mutating endpoints return `Except ApiError α × DB`; every error branch
  returns the input state unchanged, mirroring that the handlers raise
  before any commit.
- Timestamps are modelled as `Nat` ticks where the code depends on them
  (`Order.created_at`, used by the list ordering); other timestamp columns
  are omitted since no claim nor handler logic reads them.
-/

/-- `UserRole` enum of `src/models.py`. -/
inductive UserRole where
  | admin
  | tester
  | viewer
deriving DecidableEq, Repr

/-- `OrderStatus` enum of `src/models.py` (declaration order matters: the
seed cycles through `list(OrderStatus)`). -/
inductive OrderStatus where
  | pending
  | confirmed
  | shipped
  | delivered
  | cancelled
deriving DecidableEq, Repr

/-- A row of the `users` table (`src/models.py`, class `User`). -/
structure UserRow where
  id : Nat
  email : String
  username : String
  hashed_password : String
  full_name : Option String
  role : UserRole
  is_active : Bool
deriving DecidableEq, Repr

/-- A row of the `categories` table (`src/models.py`, class `Category`). -/
structure CategoryRow where
  id : Nat
  name : String
  description : Option String
  is_active : Bool
deriving DecidableEq, Repr

/-- A row of the `products` table (`src/models.py`, class `Product`).
`category_id` is nullable (`ondelete="SET NULL"`). -/
structure ProductRow where
  id : Nat
  name : String
  description : Option String
  price : Nat
  stock : Nat
  sku : String
  is_active : Bool
  category_id : Option Nat
deriving DecidableEq, Repr

/-- A row of the `orders` table (`src/models.py`, class `Order`), together
with its `order_items` association rows, carried as the list of referenced
product ids (quantity is always the default 1 and never read). -/
structure OrderRow where
  id : Nat
  order_number : String
  user_id : Nat
  status : OrderStatus
  total_amount : Nat
  shipping_address : Option String
  notes : Option String
  product_ids : List Nat
  created_at : Nat
deriving DecidableEq, Repr

/-- The database state: the four tables. -/
structure DB where
  users : List UserRow
  categories : List CategoryRow
  products : List ProductRow
  orders : List OrderRow
deriving DecidableEq, Repr

/-- One constructor per distinct `raise HTTPException(status, detail)` site
(and one for pydantic request-body validation failures). -/
inductive ApiError where
  /-- 422: the request body fails pydantic schema validation (framework). -/
  | validationError
  /-- 403: role gate denied, or detail "Cannot access other users..." /
  "Cannot cancel other users..." in `orders.py`. -/
  | unauthorized
  /-- 404: detail "... not found" lookups. -/
  | notFound
  /-- 400: detail "SKU already exists". -/
  | conflictSku
  /-- 400: detail "Email already in use" / "Email already registered". -/
  | conflictEmail
  /-- 400: detail "Username already in use" / "Username already taken". -/
  | conflictUsername
  /-- 400: detail "Category name already exists". -/
  | conflictCategoryName
  /-- 400: detail "Category not found" (referenced category id absent). -/
  | categoryMissing
  /-- 400: detail "Products not found: ..." with the set of missing ids
  (`set(data.product_ids) - found_ids`), carried as a deduplicated list. -/
  | productsNotFound (missing : List Nat)
  /-- 400: detail "Products inactive: ..." with the inactive ids in table
  order. -/
  | productsInactive (inactive : List Nat)
  /-- 400: detail "Only pending orders can be cancelled". -/
  | invalidTransition
  /-- 400: detail "Cannot delete yourself". -/
  | selfDelete
  /-- 401: detail "Invalid username or password". -/
  | invalidCredentials
  /-- 403: detail "User account is deactivated". -/
  | accountDisabled
deriving DecidableEq, Repr

/-- The HTTP status code each error carries in the source. -/
def ApiError.status : ApiError → Nat
  | .validationError => 422
  | .unauthorized => 403
  | .notFound => 404
  | .conflictSku => 400
  | .conflictEmail => 400
  | .conflictUsername => 400
  | .conflictCategoryName => 400
  | .categoryMissing => 400
  | .productsNotFound _ => 400
  | .productsInactive _ => 400
  | .invalidTransition => 400
  | .selfDelete => 400
  | .invalidCredentials => 401
  | .accountDisabled => 403

/-- Autoincrement primary key model: one more than the largest id in use
(1 on an empty table, matching sqlite rowid assignment). -/
def nextId (ids : List Nat) : Nat := ids.foldr max 0 + 1

/-- `query.filter(id == x).first()` : the first row matching a predicate. -/
def firstWhere (p : α → Bool) (l : List α) : Option α := l.find? p

/-- ORM object mutation: replace the first row matching `p` (the row that
`.first()` returned) with `f` of it. -/
def updateFirst (p : α → Bool) (f : α → α) : List α → List α
  | [] => []
  | x :: xs => if p x then f x :: xs else x :: updateFirst p f xs

/-- `db.delete(obj)`: remove the first row matching `p`. -/
def eraseFirst (p : α → Bool) : List α → List α
  | [] => []
  | x :: xs => if p x then xs else x :: eraseFirst p xs

/-! ## Auth primitives

`src/auth.py` is imported throughout the routers but is not among the
provided source files; the four definitions below are therefore modelled
from the spec rather than translated from source. -/

/-- Modelled from the spec: the password-hashing primitive of the absent
`src/auth.py` is "an opaque one-way function with a verify operation"
(section 1); it is modelled as an injective tagging function. -/
def get_password_hash (password : String) : String := "bcrypt$" ++ password

/-- Modelled from the spec: verification succeeds exactly when the hash of
the presented password equals the stored hash (section 4.2). -/
def verify_password (plain hashed : String) : Bool :=
  get_password_hash plain == hashed

/-- Modelled from the spec: a token embeds subject id and role
(section 4.2); signing and expiry are outside the model. -/
structure AccessToken where
  sub : Nat
  role : UserRole
deriving DecidableEq, Repr

/-- Modelled from the spec: token issuance captures id and role at
issuance time (section 4.2). -/
def create_access_token (uid : Nat) (role : UserRole) : AccessToken :=
  { sub := uid, role := role }

/-- Modelled from the spec: `require_admin` of the absent `src/auth.py`
admits only the admin role (sections 4.1 and 6). -/
def require_admin_ok (u : UserRow) : Bool := u.role == UserRole.admin

/-- Modelled from the spec: `require_tester` admits tester and admin
(write access on Categories/Products/Orders, sections 4.1 and 6). -/
def require_tester_ok (u : UserRow) : Bool :=
  u.role == UserRole.tester || u.role == UserRole.admin

/-- Modelled from the spec: `require_any` / `get_current_user` admit every
authenticated user; the caller is passed in already authenticated, so the
gate always passes in this model. -/
def require_any_ok (_ : UserRow) : Bool := true

/-! ## Auth router (`src/routers/auth.py`) -/

/-- `login` (`src/routers/auth.py`): look the user up by username, check
the password, then the active flag, then issue a token. -/
def login (db : DB) (username password : String) :
    Except ApiError AccessToken :=
  match firstWhere (fun u => u.username == username) db.users with
  | none => .error .invalidCredentials
  | some user =>
      if ¬ verify_password password user.hashed_password then
        .error .invalidCredentials
      else if ¬ user.is_active then
        .error .accountDisabled
      else
        .ok (create_access_token user.id user.role)

/-! ## Orders router (`src/routers/orders.py`) -/

/-- `list_orders`: viewers are pre-filtered to their own rows; otherwise a
truthy `user_id` query parameter filters by user (Python truthiness: 0 is
falsy, like the absent parameter); a truthy `status` filters by status
(enum members are always truthy); then `ORDER BY created_at DESC`,
`OFFSET skip`, `LIMIT limit`. -/
def list_orders (db : DB) (current_user : UserRow) (skip limit : Nat)
    (status : Option OrderStatus) (user_id : Option Nat) : List OrderRow :=
  let q := db.orders
  let q :=
    if current_user.role = UserRole.viewer then
      q.filter (fun (o : OrderRow) => o.user_id == current_user.id)
    else
      match user_id with
      | some uid => if uid ≠ 0 then q.filter (fun (o : OrderRow) => o.user_id == uid) else q
      | none => q
  let q :=
    match status with
    | some s => q.filter (fun (o : OrderRow) => o.status == s)
    | none => q
  let q := q.mergeSort (fun a b => b.created_at ≤ a.created_at)
  (q.drop skip).take limit

/-- The request body of `POST /orders` (`OrderCreate` in
`src/schemas.py`): `product_ids` must have at least one element
(`Field(min_length=1)`, enforced by pydantic before the handler runs). -/
structure OrderCreateInput where
  shipping_address : Option String
  notes : Option String
  product_ids : List Nat
deriving DecidableEq, Repr

/-- `create_order`: gate `require_tester`; pydantic rejects an empty
`product_ids` with 422; the handler then loads the distinct products whose
id is in the list (in table order), rejects on a count mismatch with the
set of missing ids, rejects if any loaded product is inactive, and finally
inserts an order owned by the caller with the default `pending` status and
the sum of the loaded prices as total.  `hex8` stands for the random
`uuid4().hex[:8].upper()` infix and `now` for the creation timestamp. -/
def create_order (db : DB) (current_user : UserRow)
    (data : OrderCreateInput) (hex8 : String) (now : Nat) :
    Except ApiError OrderRow × DB :=
  if ¬ require_tester_ok current_user then (.error .unauthorized, db)
  else if data.product_ids.length < 1 then (.error .validationError, db)
  else
    let products := db.products.filter (fun p => data.product_ids.contains p.id)
    if products.length ≠ data.product_ids.length then
      let foundIds := products.map (fun p => p.id)
      let missing := (data.product_ids.filter (fun i => ¬ foundIds.contains i)).dedup
      (.error (.productsNotFound missing), db)
    else
      let inactive := (products.filter (fun p => ¬ p.is_active)).map (fun p => p.id)
      if inactive ≠ [] then (.error (.productsInactive inactive), db)
      else
        let total := (products.map (fun p => p.price)).sum
        let order : OrderRow :=
          { id := nextId (db.orders.map (fun o => o.id))
            order_number := "ORD-" ++ hex8
            user_id := current_user.id
            status := OrderStatus.pending
            total_amount := total
            shipping_address := data.shipping_address
            notes := data.notes
            product_ids := products.map (fun p => p.id)
            created_at := now }
        (.ok order, { db with orders := db.orders ++ [order] })

/-- `get_order`: 404 if the id is absent, 403 if a viewer asks for an
order of another user, the row otherwise. -/
def get_order (db : DB) (current_user : UserRow) (order_id : Nat) :
    Except ApiError OrderRow :=
  match firstWhere (fun o => o.id == order_id) db.orders with
  | none => .error .notFound
  | some order =>
      if current_user.role = UserRole.viewer ∧ order.user_id ≠ current_user.id then
        .error .unauthorized
      else
        .ok order

/-- The request body of `PUT /orders/{id}` (`OrderUpdate` in
`src/schemas.py`), with `model_dump(exclude_unset=True)` semantics: an
outer `none` means the field was not supplied and is left untouched; the
nullable text fields distinguish supplied-null from absent. -/
structure OrderUpdateInput where
  status : Option OrderStatus
  shipping_address : Option (Option String)
  notes : Option (Option String)
deriving DecidableEq, Repr

/-- `update_order`: gate `require_tester`; 404 if absent; then every
supplied field is assigned with `setattr`, with no transition check on
`status`. -/
def update_order (db : DB) (current_user : UserRow) (order_id : Nat)
    (data : OrderUpdateInput) : Except ApiError OrderRow × DB :=
  if ¬ require_tester_ok current_user then (.error .unauthorized, db)
  else
    match firstWhere (fun o => o.id == order_id) db.orders with
    | none => (.error .notFound, db)
    | some order =>
        let order' :=
          { order with
            status := data.status.getD order.status
            shipping_address := data.shipping_address.getD order.shipping_address
            notes := data.notes.getD order.notes }
        (.ok order',
         { db with orders := updateFirst (fun o => o.id == order_id) (fun _ => order') db.orders })

/-- `delete_order`: gate `require_tester`; 404 if absent; otherwise the
row is removed (the `order_items` association rows go with it, which the
model carries inside the row). -/
def delete_order (db : DB) (current_user : UserRow) (order_id : Nat) :
    Except ApiError Unit × DB :=
  if ¬ require_tester_ok current_user then (.error .unauthorized, db)
  else
    match firstWhere (fun o => o.id == order_id) db.orders with
    | none => (.error .notFound, db)
    | some _ =>
        (.ok (), { db with orders := eraseFirst (fun o => o.id == order_id) db.orders })

/-- `cancel_order`: 404 if absent; 403 if a viewer cancels an order of
another user; 400 if the status is not `pending`; otherwise the status is
set to `cancelled`. -/
def cancel_order (db : DB) (current_user : UserRow) (order_id : Nat) :
    Except ApiError OrderRow × DB :=
  match firstWhere (fun o => o.id == order_id) db.orders with
  | none => (.error .notFound, db)
  | some order =>
      if current_user.role = UserRole.viewer ∧ order.user_id ≠ current_user.id then
        (.error .unauthorized, db)
      else if order.status ≠ OrderStatus.pending then
        (.error .invalidTransition, db)
      else
        let order' := { order with status := OrderStatus.cancelled }
        (.ok order',
         { db with orders := updateFirst (fun o => o.id == order_id) (fun _ => order') db.orders })

/-! ## Users router (`src/routers/users.py`) -/

/-- The request body of `PUT /users/{id}` (`UserUpdate` in
`src/schemas.py`) with `exclude_unset` semantics: each outer `none` is an
absent field. -/
structure UserUpdateInput where
  email : Option String
  username : Option String
  full_name : Option (Option String)
  role : Option UserRole
  is_active : Option Bool
deriving DecidableEq, Repr

/-- `update_user`: gate `require_admin`; 404 if absent; a supplied email
or username is re-checked for uniqueness against every other row (a hit on
the target row itself is allowed); then every supplied field is
assigned. -/
def update_user (db : DB) (current_user : UserRow) (user_id : Nat)
    (data : UserUpdateInput) : Except ApiError UserRow × DB :=
  if ¬ require_admin_ok current_user then (.error .unauthorized, db)
  else
    match firstWhere (fun u => u.id == user_id) db.users with
    | none => (.error .notFound, db)
    | some user =>
        let emailConflict :=
          match data.email with
          | some e =>
              match firstWhere (fun (u : UserRow) => u.email == e) db.users with
              | some existing => existing.id != user_id
              | none => false
          | none => false
        if emailConflict then (.error .conflictEmail, db)
        else
          let usernameConflict :=
            match data.username with
            | some n =>
                match firstWhere (fun (u : UserRow) => u.username == n) db.users with
                | some existing => existing.id != user_id
                | none => false
            | none => false
          if usernameConflict then (.error .conflictUsername, db)
          else
            let user' :=
              { user with
                email := data.email.getD user.email
                username := data.username.getD user.username
                full_name := data.full_name.getD user.full_name
                role := data.role.getD user.role
                is_active := data.is_active.getD user.is_active }
            (.ok user',
             { db with users := updateFirst (fun u => u.id == user_id) (fun _ => user') db.users })

/-- `delete_user`: gate `require_admin` (resolved before the handler
body); then the self-delete guard; then 404 if absent; otherwise the row
is removed and, per the `cascade="all, delete-orphan"` relationship of
`src/models.py` line 58, every order of that user is removed with it. -/
def delete_user (db : DB) (current_user : UserRow) (user_id : Nat) :
    Except ApiError Unit × DB :=
  if ¬ require_admin_ok current_user then (.error .unauthorized, db)
  else if user_id = current_user.id then (.error .selfDelete, db)
  else
    match firstWhere (fun u => u.id == user_id) db.users with
    | none => (.error .notFound, db)
    | some _ =>
        (.ok (),
         { db with
           users := eraseFirst (fun u => u.id == user_id) db.users
           orders := db.orders.filter (fun o => o.user_id ≠ user_id) })

/-! ## Products router (`src/routers/products.py`) -/

/-- The request body of `PUT /products/{id}` (`ProductUpdate` in
`src/schemas.py`) with `exclude_unset` semantics. -/
structure ProductUpdateInput where
  name : Option String
  description : Option (Option String)
  price : Option Nat
  stock : Option Nat
  sku : Option String
  category_id : Option (Option Nat)
  is_active : Option Bool
deriving DecidableEq, Repr

/-- `update_product`: gate `require_tester`; 404 if absent; a supplied sku
is re-checked for uniqueness against every other row; a supplied truthy
`category_id` (Python: `None` and `0` are falsy and skip the check) must
exist; then every supplied field is assigned. -/
def update_product (db : DB) (current_user : UserRow) (product_id : Nat)
    (data : ProductUpdateInput) : Except ApiError ProductRow × DB :=
  if ¬ require_tester_ok current_user then (.error .unauthorized, db)
  else
    match firstWhere (fun p => p.id == product_id) db.products with
    | none => (.error .notFound, db)
    | some product =>
        let skuConflict :=
          match data.sku with
          | some s =>
              match firstWhere (fun (p : ProductRow) => p.sku == s) db.products with
              | some existing => existing.id != product_id
              | none => false
          | none => false
        if skuConflict then (.error .conflictSku, db)
        else
          let catMissing :=
            match data.category_id with
            | some (some cid) =>
                cid != 0 && (firstWhere (fun (c : CategoryRow) => c.id == cid) db.categories).isNone
            | _ => false
          if catMissing then (.error .categoryMissing, db)
          else
            let product' :=
              { product with
                name := data.name.getD product.name
                description := data.description.getD product.description
                price := data.price.getD product.price
                stock := data.stock.getD product.stock
                sku := data.sku.getD product.sku
                category_id := data.category_id.getD product.category_id
                is_active := data.is_active.getD product.is_active }
            (.ok product',
             { db with products := updateFirst (fun p => p.id == product_id) (fun _ => product') db.products })

/-! ## Categories router (`src/routers/categories.py`) -/

/-- The request body of `PUT /categories/{id}` (`CategoryUpdate` in
`src/schemas.py`) with `exclude_unset` semantics. -/
structure CategoryUpdateInput where
  name : Option String
  description : Option (Option String)
  is_active : Option Bool
deriving DecidableEq, Repr

/-- `update_category`: gate `require_tester`; 404 if absent; a supplied
name is re-checked for uniqueness against every other row; then every
supplied field is assigned. -/
def update_category (db : DB) (current_user : UserRow) (category_id : Nat)
    (data : CategoryUpdateInput) : Except ApiError CategoryRow × DB :=
  if ¬ require_tester_ok current_user then (.error .unauthorized, db)
  else
    match firstWhere (fun c => c.id == category_id) db.categories with
    | none => (.error .notFound, db)
    | some category =>
        let nameConflict :=
          match data.name with
          | some n =>
              match firstWhere (fun (c : CategoryRow) => c.name == n) db.categories with
              | some existing => existing.id != category_id
              | none => false
          | none => false
        if nameConflict then (.error .conflictCategoryName, db)
        else
          let category' :=
            { category with
              name := data.name.getD category.name
              description := data.description.getD category.description
              is_active := data.is_active.getD category.is_active }
          (.ok category',
           { db with categories := updateFirst (fun c => c.id == category_id) (fun _ => category') db.categories })

/-- `delete_category`: gate `require_tester`; 404 if absent; otherwise the
row is removed and, per the `ondelete="SET NULL"` foreign key of
`src/models.py` line 83 (and the nullify-on-delete relationship
behaviour), every product referencing it keeps all other fields and gets
`category_id` cleared. -/
def delete_category (db : DB) (current_user : UserRow) (category_id : Nat) :
    Except ApiError Unit × DB :=
  if ¬ require_tester_ok current_user then (.error .unauthorized, db)
  else
    match firstWhere (fun c => c.id == category_id) db.categories with
    | none => (.error .notFound, db)
    | some _ =>
        (.ok (),
         { db with
           categories := eraseFirst (fun c => c.id == category_id) db.categories
           products := db.products.map (fun p =>
             if p.category_id = some category_id then { p with category_id := none } else p) })

/-! ## Seed/Reset engine (`src/seed.py`, `src/routers/admin.py`) -/

/-- The Faker-supplied randomness consumed by `seed_database`:
per-product descriptions, and per-order product selections (as indices
into the freshly created product list; `fake.random_elements` with
`unique=True` and length 1 to 4 picks existing elements, so out-of-range
indices are dropped by the model), order-number hex infixes, addresses
and optional notes. -/
structure SeedRand where
  productDescription : Nat → String
  orderProductIdxs : Nat → List Nat
  orderHex : Nat → String
  orderAddress : Nat → String
  orderNotes : Nat → Option String

/-- Zero-padded 4-digit rendering used by the seeded skus
(`f"SKU-..."` with `:04d`). -/
def pad4 (n : Nat) : String :=
  if n < 10 then "000" ++ toString n
  else if n < 100 then "00" ++ toString n
  else if n < 1000 then "0" ++ toString n
  else toString n

/-- The record-count dictionary returned by `seed_database`. -/
structure SeedCounts where
  users_created : Nat
  categories_created : Nat
  products_created : Nat
  orders_created : Nat
deriving DecidableEq, Repr

/-- The five fixed seeded categories of `src/seed.py` (name,
description). -/
def category_data : List (String × String) :=
  [ ("Electronics", "Computers, phones, and gadgets"),
    ("Clothing", "Apparel and accessories"),
    ("Home & Garden", "Furniture of appliances"),
    ("Books", "Physical and digital books"),
    ("Sports", "Sports equipment and gear") ]

/-- The twenty fixed seeded product templates of `src/seed.py` (name,
category name, price in cents, stock). -/
def product_templates : List (String × String × Nat × Nat) :=
  [ ("Laptop Pro 15", "Electronics", 129999, 15),
    ("Wireless Mouse", "Electronics", 4999, 100),
    ("USB-C Hub", "Electronics", 7999, 50),
    ("Mechanical Keyboard", "Electronics", 14999, 30),
    ("4K Monitor", "Electronics", 39999, 20),
    ("Cotton T-Shirt", "Clothing", 2499, 200),
    ("Denim Jeans", "Clothing", 5999, 150),
    ("Running Shoes", "Clothing", 8999, 75),
    ("Winter Jacket", "Clothing", 14999, 40),
    ("Desk Lamp", "Home & Garden", 3499, 80),
    ("Office Chair", "Home & Garden", 24999, 25),
    ("Plant Pot Set", "Home & Garden", 2999, 120),
    ("Coffee Table", "Home & Garden", 19999, 15),
    ("Python Cookbook", "Books", 4499, 60),
    ("Design Patterns", "Books", 4999, 45),
    ("Clean Code", "Books", 3999, 70),
    ("Yoga Mat", "Sports", 2999, 90),
    ("Dumbbells Set", "Sports", 7999, 35),
    ("Tennis Racket", "Sports", 12999, 20),
    ("Soccer Ball", "Sports", 2499, 100) ]

/-- A never-used list-indexing fallback (Python list indexing in the seed
is always in range: `users[i % len(users)]`, `statuses[i % len(statuses)]`). -/
def fallbackUser : UserRow :=
  { id := 0, email := "", username := "", hashed_password := "",
    full_name := none, role := UserRole.admin, is_active := true }

/-- `seed_database` (`src/seed.py`): insert the 3 fixed users, the 5 fixed
categories, the 20 fixed products (description randomized, sku
`SKU-0001`..`SKU-0020`, category resolved by name among the new
categories), then 10 orders assigned round-robin to the 3 users with the
status cycling through the 5 statuses in declaration order, each
referencing a random selection of the new products with the sum of their
prices as total.  Returns the new state and the creation counts. -/
def seed_database (r : SeedRand) (db : DB) : DB × SeedCounts :=
  let ub := nextId (db.users.map (fun u => u.id))
  let newUsers : List UserRow :=
    [ { id := ub, email := "admin@qa-test.com", username := "admin",
        hashed_password := get_password_hash "admin123",
        full_name := some "Admin User", role := UserRole.admin, is_active := true },
      { id := ub + 1, email := "tester@qa-test.com", username := "tester",
        hashed_password := get_password_hash "tester123",
        full_name := some "Test User", role := UserRole.tester, is_active := true },
      { id := ub + 2, email := "viewer@qa-test.com", username := "viewer",
        hashed_password := get_password_hash "viewer123",
        full_name := some "Viewer User", role := UserRole.viewer, is_active := true } ]
  let cb := nextId (db.categories.map (fun c => c.id))
  let newCategories : List CategoryRow :=
    category_data.enum.map (fun x =>
      { id := cb + x.1, name := x.2.1, description := some x.2.2, is_active := true })
  let pb := nextId (db.products.map (fun p => p.id))
  let catId := fun (n : String) =>
    (firstWhere (fun (c : CategoryRow) => c.name == n) newCategories).map (fun c => c.id)
  let newProducts : List ProductRow :=
    product_templates.enum.map (fun x =>
      { id := pb + x.1, name := x.2.1,
        description := some (r.productDescription x.1),
        price := x.2.2.2.1, stock := x.2.2.2.2,
        sku := "SKU-" ++ pad4 (x.1 + 1),
        is_active := true, category_id := catId x.2.2.1 })
  let ob := nextId (db.orders.map (fun o => o.id))
  let statuses : List OrderStatus :=
    [ .pending, .confirmed, .shipped, .delivered, .cancelled ]
  let newOrders : List OrderRow :=
    (List.range 10).map (fun i =>
      let user := newUsers.getD (i % newUsers.length) fallbackUser
      let order_products := (r.orderProductIdxs i).filterMap (fun j => newProducts.get? j)
      let total := (order_products.map (fun p => p.price)).sum
      { id := ob + i,
        order_number := "ORD-" ++ r.orderHex i,
        user_id := user.id,
        status := statuses.getD (i % statuses.length) OrderStatus.pending,
        total_amount := total,
        shipping_address := some (r.orderAddress i),
        notes := r.orderNotes i,
        product_ids := order_products.map (fun p => p.id),
        created_at := i })
  ({ users := db.users ++ newUsers,
     categories := db.categories ++ newCategories,
     products := db.products ++ newProducts,
     orders := db.orders ++ newOrders },
   { users_created := newUsers.length,
     categories_created := newCategories.length,
     products_created := newProducts.length,
     orders_created := newOrders.length })

/-- `clear_database` (`src/seed.py`): bulk-delete every row of orders,
products, categories and users, in that order. -/
def clear_database (_ : DB) : DB :=
  { users := [], categories := [], products := [], orders := [] }

/-- The `ResetResponse` schema of `src/schemas.py`. -/
structure ResetResponse where
  message : String
  users_created : Nat
  categories_created : Nat
  products_created : Nat
  orders_created : Nat
deriving DecidableEq, Repr

/-- `reset_database` (`src/routers/admin.py`): gate `require_admin`; clear
then seed, returning the creation counts. -/
def reset_database (r : SeedRand) (db : DB) (current_user : UserRow) :
    Except ApiError ResetResponse × DB :=
  if ¬ require_admin_ok current_user then (.error .unauthorized, db)
  else
    let out := seed_database r (clear_database db)
    (.ok { message := "Database reset successfully",
           users_created := out.2.users_created,
           categories_created := out.2.categories_created,
           products_created := out.2.products_created,
           orders_created := out.2.orders_created },
     out.1)

/-! ## Database invariant and concrete fixtures -/

/-- Decidable equality on endpoint results, so that witnesses can be
checked by evaluation. -/
instance {ε α : Type} [DecidableEq ε] [DecidableEq α] :
    DecidableEq (Except ε α) := fun x y =>
  match x, y with
  | .error e, .error f =>
      if h : e = f then isTrue (by rw [h])
      else isFalse (fun hh => by cases hh; exact h rfl)
  | .ok a, .ok b =>
      if h : a = b then isTrue (by rw [h])
      else isFalse (fun hh => by cases hh; exact h rfl)
  | .error _, .ok _ => isFalse (fun hh => Except.noConfusion hh)
  | .ok _, .error _ => isFalse (fun hh => Except.noConfusion hh)

/-- The uniqueness invariants maintained by the unique columns of
`src/models.py` (email, username, category name, sku, order number are
unique; primary keys are unique). -/
def DB.wf (db : DB) : Prop :=
  (db.users.map (fun u => u.id)).Nodup ∧
  (db.users.map (fun u => u.email)).Nodup ∧
  (db.users.map (fun u => u.username)).Nodup ∧
  (db.categories.map (fun c => c.id)).Nodup ∧
  (db.categories.map (fun c => c.name)).Nodup ∧
  (db.products.map (fun p => p.id)).Nodup ∧
  (db.products.map (fun p => p.sku)).Nodup ∧
  (db.orders.map (fun o => o.id)).Nodup

instance (db : DB) : Decidable db.wf := by
  unfold DB.wf
  infer_instance

/-- Fixture: the seeded admin account. -/
def uAdmin : UserRow :=
  { id := 1, email := "admin@qa-test.com", username := "admin",
    hashed_password := get_password_hash "admin123",
    full_name := some "Admin User", role := .admin, is_active := true }

/-- Fixture: the seeded tester account. -/
def uTester : UserRow :=
  { id := 2, email := "tester@qa-test.com", username := "tester",
    hashed_password := get_password_hash "tester123",
    full_name := some "Test User", role := .tester, is_active := true }

/-- Fixture: the seeded viewer account. -/
def uViewer : UserRow :=
  { id := 3, email := "viewer@qa-test.com", username := "viewer",
    hashed_password := get_password_hash "viewer123",
    full_name := some "Viewer User", role := .viewer, is_active := true }

/-- Fixture: a category. -/
def cToys : CategoryRow :=
  { id := 1, name := "Toys", description := some "Playthings", is_active := true }

/-- Fixture: an active product in the Toys category. -/
def pBall : ProductRow :=
  { id := 1, name := "Ball", description := none, price := 500, stock := 3,
    sku := "T-001", is_active := true, category_id := some 1 }

/-- Fixture: an inactive product. -/
def pBat : ProductRow :=
  { id := 2, name := "Bat", description := none, price := 700, stock := 2,
    sku := "T-002", is_active := false, category_id := none }

/-- Fixture: a pending order owned by the tester. -/
def oPending : OrderRow :=
  { id := 1, order_number := "ORD-AAAAAAAA", user_id := 2, status := .pending,
    total_amount := 500, shipping_address := none, notes := none,
    product_ids := [1], created_at := 0 }

/-- Fixture: a shipped order owned by the tester. -/
def oShipped : OrderRow :=
  { id := 2, order_number := "ORD-BBBBBBBB", user_id := 2, status := .shipped,
    total_amount := 500, shipping_address := none, notes := none,
    product_ids := [1], created_at := 1 }

/-- Fixture database holding the rows above. -/
def fixtureDB : DB :=
  { users := [uAdmin, uTester, uViewer],
    categories := [cToys],
    products := [pBall, pBat],
    orders := [oPending, oShipped] }

/-! ## Claims -/

/-- C1: viewer-scoped order access.  Every row `list_orders` returns to a
viewer is owned by the viewer (the listing is pre-filtered by ownership,
not denied), and `get_order` by a viewer on an existing order of another
user fails with `unauthorized` (403) and returns no order. -/
theorem viewer_order_scope (db : DB) (u : UserRow)
    (hrole : u.role = UserRole.viewer) :
    (∀ skip limit status user_id o,
        o ∈ list_orders db u skip limit status user_id → o.user_id = u.id) ∧
    (∀ oid o, firstWhere (fun o => o.id == oid) db.orders = some o →
        o.user_id ≠ u.id →
        get_order db u oid = .error .unauthorized) := by
  constructor
  · intro skip limit status user_id o hmem
    simp only [list_orders, hrole, eq_self_iff_true, if_true] at hmem
    have h1 := List.mem_of_mem_drop (List.mem_of_mem_take hmem)
    have h2 := (List.mergeSort_perm _ _).mem_iff.mp h1
    have h3 : o ∈ db.orders.filter (fun o => o.user_id == u.id) := by
      cases status with
      | none => exact h2
      | some s => exact List.mem_of_mem_filter h2
    have h4 := (List.mem_filter.mp h3).2
    simpa using h4
  · intro oid o hfind hne
    unfold get_order
    rw [hfind]
    simp [hrole, hne]

/-- Witness for C1 at the fixture database: the viewer (id 3) asking for
order 2, owned by the tester (id 2), is denied with 403. -/
theorem viewer_order_scope_witness :
    uViewer.role = UserRole.viewer ∧
    firstWhere (fun o => o.id == 2) fixtureDB.orders = some oShipped ∧
    oShipped.user_id ≠ uViewer.id ∧
    get_order fixtureDB uViewer 2 = .error .unauthorized :=
  ⟨rfl, by decide, by decide,
   (viewer_order_scope fixtureDB uViewer rfl).2 2 oShipped (by decide) (by decide)⟩

/-- C8: every order created through `create_order` is owned by the caller
and starts `pending`: the success row carries `user_id = current_user.id`
(the request body has no user parameter) and the default status. -/
theorem create_order_owner_pending (db : DB) (u : UserRow)
    (data : OrderCreateInput) (hex8 : String) (now : Nat) (ord : OrderRow)
    (h : (create_order db u data hex8 now).1 = .ok ord) :
    ord.user_id = u.id ∧ ord.status = OrderStatus.pending := by
  simp only [create_order] at h
  split at h
  · simp at h
  · split at h
    · simp at h
    · split at h
      · simp at h
      · split at h
        · simp at h
        · simp only [Prod.fst] at h
          cases h
          exact ⟨rfl, rfl⟩

/-- Witness for C8: the tester creates an order referencing the active
fixture product; the created row is owned by user 2 and pending. -/
theorem create_order_owner_pending_witness :
    (create_order fixtureDB uTester ⟨none, none, [1]⟩ "CCCCCCCC" 5).1 =
      .ok { id := 3, order_number := "ORD-CCCCCCCC", user_id := 2,
            status := .pending, total_amount := 500, shipping_address := none,
            notes := none, product_ids := [1], created_at := 5 } ∧
    ({ id := 3, order_number := "ORD-CCCCCCCC", user_id := 2,
       status := .pending, total_amount := 500, shipping_address := none,
       notes := none, product_ids := [1], created_at := 5 } : OrderRow).user_id = uTester.id ∧
    ({ id := 3, order_number := "ORD-CCCCCCCC", user_id := 2,
       status := .pending, total_amount := 500, shipping_address := none,
       notes := none, product_ids := [1], created_at := 5 } : OrderRow).status = OrderStatus.pending := by
  refine ⟨by decide, ?_⟩
  exact create_order_owner_pending fixtureDB uTester ⟨none, none, [1]⟩ "CCCCCCCC" 5 _ (by decide)

/-- C10: for a viewer, the existence check runs before the ownership
check in both `get_order` and `cancel_order`: a nonexistent id yields 404
`notFound` while an existing foreign order yields 403 `unauthorized`, two
distinguishable outcomes. -/
theorem viewer_existence_before_ownership (db : DB) (u : UserRow)
    (hrole : u.role = UserRole.viewer) :
    (∀ oid, firstWhere (fun o => o.id == oid) db.orders = none →
        get_order db u oid = .error .notFound ∧
        (cancel_order db u oid).1 = .error .notFound) ∧
    (∀ oid o, firstWhere (fun o => o.id == oid) db.orders = some o →
        o.user_id ≠ u.id →
        get_order db u oid = .error .unauthorized ∧
        (cancel_order db u oid).1 = .error .unauthorized) ∧
    ApiError.notFound ≠ ApiError.unauthorized ∧
    ApiError.notFound.status = 404 ∧ ApiError.unauthorized.status = 403 := by
  refine ⟨?_, ?_, by decide, rfl, rfl⟩
  · intro oid hnone
    constructor
    · unfold get_order
      rw [hnone]
    · unfold cancel_order
      rw [hnone]
  · intro oid o hfind hne
    constructor
    · unfold get_order
      rw [hfind]
      simp [hrole, hne]
    · unfold cancel_order
      rw [hfind]
      simp [hrole, hne]

/-- Witness for C10 at the fixture database: order id 99 does not exist
(404 for the viewer), order id 2 exists and belongs to the tester (403
for the viewer). -/
theorem viewer_existence_before_ownership_witness :
    uViewer.role = UserRole.viewer ∧
    firstWhere (fun o => o.id == 99) fixtureDB.orders = none ∧
    get_order fixtureDB uViewer 99 = .error .notFound ∧
    (cancel_order fixtureDB uViewer 99).1 = .error .notFound ∧
    firstWhere (fun o => o.id == 2) fixtureDB.orders = some oShipped ∧
    oShipped.user_id ≠ uViewer.id ∧
    get_order fixtureDB uViewer 2 = .error .unauthorized ∧
    (cancel_order fixtureDB uViewer 2).1 = .error .unauthorized :=
  ⟨rfl, by decide,
   ((viewer_existence_before_ownership fixtureDB uViewer rfl).1 99 (by decide)).1,
   ((viewer_existence_before_ownership fixtureDB uViewer rfl).1 99 (by decide)).2,
   by decide, by decide,
   ((viewer_existence_before_ownership fixtureDB uViewer rfl).2.1 2 oShipped (by decide) (by decide)).1,
   ((viewer_existence_before_ownership fixtureDB uViewer rfl).2.1 2 oShipped (by decide) (by decide)).2⟩

/-- C4: cancellation is only valid from `pending`: an authorized cancel of
a pending order sets the status to `cancelled`; any other status fails
with `invalidTransition` (400) and the state is unchanged; while the
generic `update_order` lets a tester/admin set any status value with no
transition check. -/
theorem cancel_only_from_pending (db : DB) (u : UserRow) (oid : Nat)
    (o : OrderRow)
    (hfind : firstWhere (fun x => x.id == oid) db.orders = some o)
    (hauth : ¬ (u.role = UserRole.viewer ∧ o.user_id ≠ u.id)) :
    (o.status = OrderStatus.pending →
      cancel_order db u oid =
        (.ok { o with status := OrderStatus.cancelled },
         { db with orders := (updateFirst (fun x => x.id == oid)
             (fun _ => { o with status := OrderStatus.cancelled }) db.orders) })) ∧
    (o.status ≠ OrderStatus.pending →
      cancel_order db u oid = (.error .invalidTransition, db)) ∧
    (∀ s, require_tester_ok u = true →
      ∃ o', (update_order db u oid ⟨some s, none, none⟩).1 = .ok o' ∧
        o'.status = s) := by
  refine ⟨?_, ?_, ?_⟩
  · intro hpend
    unfold cancel_order
    rw [hfind]
    simp [hauth, hpend]
  · intro hnp
    unfold cancel_order
    rw [hfind]
    simp [hauth, hnp]
  · intro s htester
    unfold update_order
    rw [hfind]
    simp [htester]

/-- Witness for C4 at the fixture database: the tester cancels their
pending order 1 (it becomes cancelled), fails to cancel the shipped order
2, and freely sets order 2 to `delivered` through the generic update. -/
theorem cancel_only_from_pending_witness :
    firstWhere (fun x => x.id == 1) fixtureDB.orders = some oPending ∧
    ¬ (uTester.role = UserRole.viewer ∧ oPending.user_id ≠ uTester.id) ∧
    oPending.status = OrderStatus.pending ∧
    cancel_order fixtureDB uTester 1 =
      (.ok { oPending with status := OrderStatus.cancelled },
       { fixtureDB with orders := (updateFirst (fun x => x.id == 1)
           (fun _ => { oPending with status := OrderStatus.cancelled }) fixtureDB.orders) }) ∧
    firstWhere (fun x => x.id == 2) fixtureDB.orders = some oShipped ∧
    oShipped.status ≠ OrderStatus.pending ∧
    cancel_order fixtureDB uTester 2 = (.error .invalidTransition, fixtureDB) :=
  ⟨by decide, by decide, rfl,
   (cancel_only_from_pending fixtureDB uTester 1 oPending (by decide) (by decide)).1 rfl,
   by decide, by decide,
   (cancel_only_from_pending fixtureDB uTester 2 oShipped (by decide) (by decide)).2.1 (by decide)⟩

/-- Counterexample for C6 as stated: a self-delete request does NOT fail
with the 400 InvalidInput error "regardless of role" — the `require_admin`
dependency resolves first, so the tester (id 2) deleting their own account
is rejected with 403 `unauthorized`, not with the 400 `selfDelete`
error. -/
theorem self_delete_claim_counterexample :
    delete_user fixtureDB uTester 2 = (.error .unauthorized, fixtureDB) ∧
    ApiError.unauthorized ≠ ApiError.selfDelete ∧
    ApiError.unauthorized.status = 403 ∧ ApiError.selfDelete.status = 400 := by
  decide

/-- C6 amended: for every delete-user request that passes the admin gate
(the only role that can reach the handler), a target id equal to the
caller id fails with the 400 `selfDelete` InvalidInput error before any
lookup, and the state — hence the caller account — is unchanged; any
non-admin caller is instead rejected with 403 `unauthorized` by the
gate. -/
theorem self_delete_rejected (db : DB) (u : UserRow) (uid : Nat) :
    (u.role = UserRole.admin → uid = u.id →
      delete_user db u uid = (.error .selfDelete, db)) ∧
    (u.role ≠ UserRole.admin →
      delete_user db u uid = (.error .unauthorized, db)) := by
  constructor
  · intro hrole hself
    unfold delete_user
    simp [require_admin_ok, hrole, hself]
  · intro hrole
    unfold delete_user
    have : (require_admin_ok u) = false := by
      unfold require_admin_ok
      simp [hrole]
    simp [this]

/-- Witness for C6 (amended) at the fixture database: the admin (id 1)
deleting user id 1 fails with `selfDelete` and the database is
untouched. -/
theorem self_delete_rejected_witness :
    uAdmin.role = UserRole.admin ∧ (1 : Nat) = uAdmin.id ∧
    delete_user fixtureDB uAdmin 1 = (.error .selfDelete, fixtureDB) :=
  ⟨rfl, rfl, (self_delete_rejected fixtureDB uAdmin 1).1 rfl rfl⟩

/-- C5: deleting a user also deletes exactly the orders referencing that
user (cascade), and deleting a category keeps every product, clearing the
category reference of those that pointed at it and leaving every other
field — and every other product — untouched (nullify). -/
theorem delete_cascade_and_nullify (db : DB) (u : UserRow) :
    (∀ uid target, u.role = UserRole.admin → uid ≠ u.id →
      firstWhere (fun x => x.id == uid) db.users = some target →
      (delete_user db u uid).1 = .ok () ∧
      (∀ o, o ∈ (delete_user db u uid).2.orders ↔ o ∈ db.orders ∧ o.user_id ≠ uid) ∧
      (delete_user db u uid).2.products = db.products ∧
      (delete_user db u uid).2.categories = db.categories) ∧
    (∀ cid c, require_tester_ok u = true →
      firstWhere (fun x => x.id == cid) db.categories = some c →
      (delete_category db u cid).1 = .ok () ∧
      (delete_category db u cid).2.products.length = db.products.length ∧
      (∀ p, p ∈ db.products → p.category_id = some cid →
          { p with category_id := none } ∈ (delete_category db u cid).2.products) ∧
      (∀ p, p ∈ db.products → p.category_id ≠ some cid →
          p ∈ (delete_category db u cid).2.products) ∧
      (delete_category db u cid).2.users = db.users ∧
      (delete_category db u cid).2.orders = db.orders) := by
  constructor
  · intro uid target hrole hne hfind
    have hgate : require_admin_ok u = true := by
      unfold require_admin_ok
      simp [hrole]
    have hres : delete_user db u uid =
        (.ok (),
         { db with
             users := eraseFirst (fun x => x.id == uid) db.users,
             orders := db.orders.filter (fun o => o.user_id ≠ uid) }) := by
      unfold delete_user
      rw [hfind]
      simp [hgate, hne]
    refine ⟨by rw [hres], ?_, by rw [hres], by rw [hres]⟩
    intro o
    rw [hres]
    simp [List.mem_filter]
  · intro cid c htester hfind
    have hres : delete_category db u cid =
        (.ok (),
         { db with
             categories := eraseFirst (fun x => x.id == cid) db.categories,
             products := db.products.map (fun p =>
               if p.category_id = some cid then { p with category_id := none } else p) }) := by
      unfold delete_category
      rw [hfind]
      simp [htester]
    refine ⟨by rw [hres], by rw [hres]; simp, ?_, ?_, by rw [hres], by rw [hres]⟩
    · intro p hp hcat
      rw [hres]
      have : { p with category_id := none } =
          (fun q => if q.category_id = some cid then { q with category_id := none } else q) p := by
        simp [hcat]
      rw [this]
      exact List.mem_map_of_mem _ hp
    · intro p hp hcat
      rw [hres]
      have : p = (fun q => if q.category_id = some cid then { q with category_id := none } else q) p := by
        simp [hcat]
      rw [this]
      exact List.mem_map_of_mem _ hp

/-- Witness for C5 at the fixture database: deleting the viewer (id 3,
who owns no orders) succeeds for the admin, and deleting category 1
keeps both products while clearing the reference of product 1. -/
theorem delete_cascade_and_nullify_witness :
    uAdmin.role = UserRole.admin ∧ (3 : Nat) ≠ uAdmin.id ∧
    firstWhere (fun x => x.id == 3) fixtureDB.users = some uViewer ∧
    (delete_user fixtureDB uAdmin 3).1 = .ok () ∧
    require_tester_ok uAdmin = true ∧
    firstWhere (fun x => x.id == 1) fixtureDB.categories = some cToys ∧
    (delete_category fixtureDB uAdmin 1).1 = .ok () ∧
    { pBall with category_id := none } ∈ (delete_category fixtureDB uAdmin 1).2.products ∧
    pBat ∈ (delete_category fixtureDB uAdmin 1).2.products :=
  ⟨rfl, by decide, by decide,
   ((delete_cascade_and_nullify fixtureDB uAdmin).1 3 uViewer rfl (by decide) (by decide)).1,
   by decide, by decide,
   ((delete_cascade_and_nullify fixtureDB uAdmin).2 1 cToys (by decide) (by decide)).1,
   ((delete_cascade_and_nullify fixtureDB uAdmin).2 1 cToys (by decide) (by decide)).2.2.1
     pBall (by decide) (by decide),
   ((delete_cascade_and_nullify fixtureDB uAdmin).2 1 cToys (by decide) (by decide)).2.2.2.1
     pBat (by decide) (by decide)⟩

/-! ## Counting lemmas for the product-loading query of `create_order` -/

/-- The ids of the loaded product rows are pairwise distinct when the
table has unique ids. -/
lemma foundIds_nodup (ids : List Nat) (ps : List ProductRow)
    (hps : (ps.map (fun p => p.id)).Nodup) :
    ((ps.filter (fun p => ids.contains p.id)).map (fun p => p.id)).Nodup :=
  List.Nodup.sublist (List.Sublist.map _ (List.filter_sublist ps)) hps

/-- Every loaded id comes from the requested list. -/
lemma foundIds_subset (ids : List Nat) (ps : List ProductRow) :
    ∀ j ∈ (ps.filter (fun p => ids.contains p.id)).map (fun p => p.id), j ∈ ids := by
  intro j hj
  rcases List.mem_map.mp hj with ⟨p, hpmem, rfl⟩
  have h := (List.mem_filter.mp hpmem).2
  simpa using h

/-- A requested id that exists in the table is among the loaded ids. -/
lemma mem_foundIds (ids : List Nat) (ps : List ProductRow) (i : Nat)
    (hi : i ∈ ids) (hp : ∃ p ∈ ps, p.id = i) :
    i ∈ (ps.filter (fun p => ids.contains p.id)).map (fun p => p.id) := by
  rcases hp with ⟨p, hpmem, hpid⟩
  refine List.mem_map.mpr ⟨p, List.mem_filter.mpr ⟨hpmem, ?_⟩, hpid⟩
  simp [hpid, hi]

/-- The number of loaded rows never exceeds the number of distinct
requested ids. -/
lemma found_length_le (ids : List Nat) (ps : List ProductRow)
    (hps : (ps.map (fun p => p.id)).Nodup) :
    (ps.filter (fun p => ids.contains p.id)).length ≤ ids.dedup.length := by
  have h1 := foundIds_nodup ids ps hps
  have h2 : ∀ j ∈ (ps.filter (fun p => ids.contains p.id)).map (fun p => p.id),
      j ∈ ids.dedup := fun j hj => List.mem_dedup.mpr (foundIds_subset ids ps j hj)
  have h3 := (List.subperm_of_subset h1 h2).length_le
  simpa [List.length_map] using h3

/-- With a missing requested id, strictly fewer rows are loaded than ids
were requested. -/
lemma found_length_lt (ids : List Nat) (ps : List ProductRow)
    (hps : (ps.map (fun p => p.id)).Nodup) (i0 : Nat) (hi0 : i0 ∈ ids)
    (hmiss : ∀ p ∈ ps, p.id ≠ i0) :
    (ps.filter (fun p => ids.contains p.id)).length < ids.length := by
  have h1 := foundIds_nodup ids ps hps
  have h2 : ∀ j ∈ (ps.filter (fun p => ids.contains p.id)).map (fun p => p.id),
      j ∈ ids.dedup.erase i0 := by
    intro j hj
    rcases List.mem_map.mp hj with ⟨p, hpmem, rfl⟩
    refine (List.mem_erase_of_ne (hmiss p (List.mem_of_mem_filter hpmem))).mpr ?_
    exact List.mem_dedup.mpr (foundIds_subset ids ps _ hj)
  have h3 := (List.subperm_of_subset h1 h2).length_le
  have h4 : (ids.dedup.erase i0).length = ids.dedup.length - 1 :=
    List.length_erase_of_mem (List.mem_dedup.mpr hi0)
  have h5 : 0 < ids.dedup.length :=
    List.length_pos.mpr (List.ne_nil_of_mem (List.mem_dedup.mpr hi0))
  have h6 : (ps.filter (fun p => ids.contains p.id)).length ≤ ids.dedup.length - 1 := by
    rw [← h4]
    simpa [List.length_map] using h3
  calc (ps.filter (fun p => ids.contains p.id)).length
      ≤ ids.dedup.length - 1 := h6
    _ < ids.dedup.length := Nat.sub_lt h5 Nat.one_pos
    _ ≤ ids.length := (List.dedup_sublist ids).length_le

/-- With distinct requested ids that all exist, exactly as many rows are
loaded as ids were requested. -/
lemma found_length_eq (ids : List Nat) (ps : List ProductRow)
    (hps : (ps.map (fun p => p.id)).Nodup) (hnd : ids.Nodup)
    (hall : ∀ i ∈ ids, ∃ p ∈ ps, p.id = i) :
    (ps.filter (fun p => ids.contains p.id)).length = ids.length := by
  have h1 := foundIds_nodup ids ps hps
  have hle := (List.subperm_of_subset h1 (foundIds_subset ids ps)).length_le
  have hge := (List.subperm_of_subset hnd
    (fun i hi => mem_foundIds ids ps i hi (hall i hi))).length_le
  have hfin := Nat.le_antisymm (by simpa [List.length_map] using hle)
    (by simpa [List.length_map] using hge)
  simpa using hfin

/-- A list with a repeated element strictly shrinks under `dedup`. -/
lemma dedup_length_lt (l : List Nat) (h : ¬ l.Nodup) :
    l.dedup.length < l.length := by
  rcases Nat.lt_or_ge l.dedup.length l.length with h1 | h1
  · exact h1
  · exact absurd
      ((List.dedup_sublist l).eq_of_length
        (Nat.le_antisymm (List.dedup_sublist l).length_le h1) ▸ List.nodup_dedup l)
      h

/-- A requested id is among the loaded ids exactly when some table row
carries it. -/
lemma mem_foundIds_iff (ids : List Nat) (ps : List ProductRow) (i : Nat)
    (hi : i ∈ ids) :
    i ∈ (ps.filter (fun p => ids.contains p.id)).map (fun p => p.id) ↔
      ∃ p ∈ ps, p.id = i := by
  constructor
  · intro h
    rcases List.mem_map.mp h with ⟨p, hp, rfl⟩
    exact ⟨p, List.mem_of_mem_filter hp, rfl⟩
  · exact mem_foundIds ids ps i hi

/-- C9: a repeated id in `product_ids` makes the loaded distinct rows
fewer than the requested ids, so creation fails with the
"Products not found" error even when every referenced product exists and
is active — and the enumerated set of missing ids is empty. -/
theorem duplicate_ids_reject_creation (db : DB) (u : UserRow)
    (data : OrderCreateInput) (hex8 : String) (now : Nat)
    (hwf : db.wf) (htester : require_tester_ok u = true)
    (hdup : ¬ data.product_ids.Nodup)
    (hall : ∀ i ∈ data.product_ids, ∃ p ∈ db.products, p.id = i ∧ p.is_active = true) :
    create_order db u data hex8 now = (.error (.productsNotFound []), db) := by
  have hne : data.product_ids ≠ [] := by
    intro h
    exact hdup (h ▸ List.nodup_nil)
  have hlen1 : ¬ (data.product_ids.length < 1) := by
    have := List.length_pos.mpr hne
    omega
  have hlt : (db.products.filter (fun p => data.product_ids.contains p.id)).length
      < data.product_ids.length :=
    lt_of_le_of_lt (found_length_le _ _ hwf.2.2.2.2.2.1) (dedup_length_lt _ hdup)
  have hfilt : (data.product_ids.filter (fun i =>
      ¬ ((db.products.filter (fun p => data.product_ids.contains p.id)).map
          (fun p => p.id)).contains i)) = [] := by
    apply List.filter_eq_nil_iff.mpr
    intro i hi
    have hmem := mem_foundIds data.product_ids db.products i hi
      ⟨(hall i hi).choose, (hall i hi).choose_spec.1, (hall i hi).choose_spec.2.1⟩
    simp only [List.mem_map] at hmem
    rcases hmem with ⟨p, hp, hpid⟩
    have hp1 := List.mem_of_mem_filter hp
    have hp2 := (List.mem_filter.mp hp).2
    simp
    exact ⟨p, hp1, by simpa using hp2, hpid⟩
  simp only [create_order]
  rw [if_neg (not_not_intro htester), if_neg hlen1, if_pos (Nat.ne_of_lt hlt)]
  rw [hfilt]
  rfl

/-- Witness for C9 at the fixture database: requesting `[1, 1]` (product
1 exists and is active) fails with an empty missing set. -/
theorem duplicate_ids_reject_creation_witness :
    fixtureDB.wf ∧ require_tester_ok uTester = true ∧
    ¬ ([1, 1] : List Nat).Nodup ∧
    create_order fixtureDB uTester ⟨none, none, [1, 1]⟩ "EEEEEEEE" 9 =
      (.error (.productsNotFound []), fixtureDB) :=
  ⟨by decide, by decide, by decide,
   duplicate_ids_reject_creation fixtureDB uTester ⟨none, none, [1, 1]⟩ "EEEEEEEE" 9
     (by decide) (by decide) (by decide)
     (by intro i hi
         refine ⟨pBall, by decide, ?_, by decide⟩
         simp at hi
         simp [hi, pBall])⟩

/-- Counterexample for C3 as stated: an empty product list never reaches
the handler's 400 InvalidInput paths — pydantic rejects it with a 422
validation error; and all-existing all-active ids do not guarantee
success, since a repeated id (here `[1, 1]`) still fails. -/
theorem order_validation_claim_counterexample :
    create_order fixtureDB uTester ⟨none, none, []⟩ "DDDDDDDD" 9 =
      (.error .validationError, fixtureDB) ∧
    ApiError.validationError.status = 422 ∧
    ApiError.validationError.status ≠ 400 ∧
    pBall ∈ fixtureDB.products ∧ pBall.is_active = true ∧
    (create_order fixtureDB uTester ⟨none, none, [1, 1]⟩ "DDDDDDDE" 9).1 =
      .error (.productsNotFound []) := by
  decide

/-- C3 amended: an empty product list is rejected by request validation
(422) before the handler; a missing referenced id fails with
`productsNotFound` enumerating exactly the distinct requested-but-absent
ids; all-existing ids with an inactive one fail with `productsInactive`
enumerating exactly the inactive referenced ids; and with distinct,
existing, active ids creation succeeds with `total_amount` the exact sum
of the referenced products' prices at that moment. -/
theorem create_order_validation (db : DB) (u : UserRow)
    (hwf : db.wf) (htester : require_tester_ok u = true) :
    (∀ ship notes hex now,
        create_order db u ⟨ship, notes, []⟩ hex now = (.error .validationError, db)) ∧
    (∀ data hex now, data.product_ids ≠ [] →
        (∃ i ∈ data.product_ids, ∀ p ∈ db.products, p.id ≠ i) →
        ∃ ms, create_order db u data hex now = (.error (.productsNotFound ms), db) ∧
          ms ≠ [] ∧ ms.Nodup ∧
          (∀ i, i ∈ ms ↔ i ∈ data.product_ids ∧ ∀ p ∈ db.products, p.id ≠ i)) ∧
    (∀ data hex now, data.product_ids.Nodup → data.product_ids ≠ [] →
        (∀ i ∈ data.product_ids, ∃ p ∈ db.products, p.id = i) →
        (∃ i ∈ data.product_ids, ∃ p ∈ db.products, p.id = i ∧ p.is_active = false) →
        ∃ xs, create_order db u data hex now = (.error (.productsInactive xs), db) ∧
          xs ≠ [] ∧
          (∀ i, i ∈ xs ↔
            ∃ p ∈ db.products, p.id = i ∧ i ∈ data.product_ids ∧ p.is_active = false)) ∧
    (∀ data hex now, data.product_ids.Nodup → data.product_ids ≠ [] →
        (∀ i ∈ data.product_ids, ∃ p ∈ db.products, p.id = i ∧ p.is_active = true) →
        ∃ ord db', create_order db u data hex now = (.ok ord, db') ∧
          ord.total_amount = ((db.products.filter
            (fun p => data.product_ids.contains p.id)).map (fun p => p.price)).sum) := by
  refine ⟨?_, ?_, ?_, ?_⟩
  · intro ship notes hex now
    simp [create_order, htester]
  · intro data hex now hne hmiss
    obtain ⟨i0, hi0, hmiss0⟩ := hmiss
    have hlen1 : ¬ (data.product_ids.length < 1) := by
      have := List.length_pos.mpr hne
      omega
    have hlt := found_length_lt data.product_ids db.products hwf.2.2.2.2.2.1 i0 hi0 hmiss0
    refine ⟨(data.product_ids.filter (fun i =>
        ¬ ((db.products.filter (fun p => data.product_ids.contains p.id)).map
            (fun p => p.id)).contains i)).dedup, ?_, ?_, List.nodup_dedup _, ?_⟩
    · simp only [create_order]
      rw [if_neg (not_not_intro htester), if_neg hlen1, if_pos (Nat.ne_of_lt hlt)]
    · have hi0pred : i0 ∈ data.product_ids.filter (fun i =>
          ¬ ((db.products.filter (fun p => data.product_ids.contains p.id)).map
              (fun p => p.id)).contains i) := by
        refine List.mem_filter.mpr ⟨hi0, ?_⟩
        simp only [decide_eq_true_eq]
        intro hc
        have : i0 ∈ (db.products.filter
            (fun p => data.product_ids.contains p.id)).map (fun p => p.id) := by
          simpa using hc
        rcases List.mem_map.mp this with ⟨p, hp, hpid⟩
        exact hmiss0 p (List.mem_of_mem_filter hp) hpid
      exact List.ne_nil_of_mem (List.mem_dedup.mpr hi0pred)
    · intro i
      rw [List.mem_dedup, List.mem_filter]
      constructor
      · rintro ⟨hiids, hpred⟩
        refine ⟨hiids, ?_⟩
        intro p hp hpid
        have hin : i ∈ (db.products.filter
            (fun p => data.product_ids.contains p.id)).map (fun p => p.id) :=
          mem_foundIds data.product_ids db.products i hiids ⟨p, hp, hpid⟩
        simp only [decide_eq_true_eq] at hpred
        exact hpred (by simpa using hin)
      · rintro ⟨hiids, hnone⟩
        refine ⟨hiids, ?_⟩
        simp only [decide_eq_true_eq]
        intro hc
        have : i ∈ (db.products.filter
            (fun p => data.product_ids.contains p.id)).map (fun p => p.id) := by
          simpa using hc
        rcases List.mem_map.mp this with ⟨p, hp, hpid⟩
        exact hnone p (List.mem_of_mem_filter hp) hpid
  · intro data hex now hnd hne hall hinact
    obtain ⟨i0, hi0, p0, hp0, hp0id, hp0act⟩ := hinact
    have hlen1 : ¬ (data.product_ids.length < 1) := by
      have := List.length_pos.mpr hne
      omega
    have hleneq := found_length_eq data.product_ids db.products hwf.2.2.2.2.2.1 hnd hall
    have hp0found : p0 ∈ db.products.filter
        (fun p => data.product_ids.contains p.id) :=
      List.mem_filter.mpr ⟨hp0, by simp [hp0id, hi0]⟩
    have hp0in : p0 ∈ (db.products.filter
        (fun p => data.product_ids.contains p.id)).filter (fun p => ¬ p.is_active) :=
      List.mem_filter.mpr ⟨hp0found, by simp [hp0act]⟩
    have hxsne : ((db.products.filter
        (fun p => data.product_ids.contains p.id)).filter
          (fun p => ¬ p.is_active)).map (fun p => p.id) ≠ [] :=
      List.ne_nil_of_mem (List.mem_map_of_mem _ hp0in)
    refine ⟨((db.products.filter (fun p => data.product_ids.contains p.id)).filter
        (fun p => ¬ p.is_active)).map (fun p => p.id), ?_, hxsne, ?_⟩
    · simp only [create_order]
      rw [if_neg (not_not_intro htester), if_neg hlen1,
        if_neg (fun hc => hc hleneq), if_pos hxsne]
    · intro i
      constructor
      · intro hin
        rcases List.mem_map.mp hin with ⟨p, hp, hpid⟩
        have hp1 := List.mem_of_mem_filter (List.mem_of_mem_filter hp)
        have hcont := (List.mem_filter.mp (List.mem_of_mem_filter hp)).2
        have hact := (List.mem_filter.mp hp).2
        refine ⟨p, hp1, hpid, ?_, ?_⟩
        · rw [← hpid]
          simpa using hcont
        · simpa using hact
      · rintro ⟨p, hp, hpid, hiids, hact⟩
        refine List.mem_map.mpr ⟨p, List.mem_filter.mpr ⟨List.mem_filter.mpr ⟨hp, ?_⟩, ?_⟩, hpid⟩
        · simp [hpid, hiids]
        · simp [hact]
  · intro data hex now hnd hne hall
    have hall' : ∀ i ∈ data.product_ids, ∃ p ∈ db.products, p.id = i :=
      fun i hi => ⟨(hall i hi).choose, (hall i hi).choose_spec.1,
        (hall i hi).choose_spec.2.1⟩
    have hlen1 : ¬ (data.product_ids.length < 1) := by
      have := List.length_pos.mpr hne
      omega
    have hleneq := found_length_eq data.product_ids db.products hwf.2.2.2.2.2.1 hnd hall'
    have hinactnil : ((db.products.filter
        (fun p => data.product_ids.contains p.id)).filter
          (fun p => ¬ p.is_active)) = [] := by
      apply List.filter_eq_nil_iff.mpr
      intro p hp
      have hpmem := List.mem_of_mem_filter hp
      have hcont := (List.mem_filter.mp hp).2
      have hid : p.id ∈ data.product_ids := by simpa using hcont
      obtain ⟨q, hq, hqid, hqact⟩ := hall p.id hid
      have hqp : q = p := List.inj_on_of_nodup_map hwf.2.2.2.2.2.1 hq hpmem hqid
      have : p.is_active = true := hqp ▸ hqact
      simp [this]
    have hres : create_order db u data hex now =
        (.ok { id := nextId (db.orders.map (fun o => o.id)),
               order_number := "ORD-" ++ hex,
               user_id := u.id,
               status := OrderStatus.pending,
               total_amount := ((db.products.filter
                 (fun p => data.product_ids.contains p.id)).map (fun p => p.price)).sum,
               shipping_address := data.shipping_address,
               notes := data.notes,
               product_ids := (db.products.filter
                 (fun p => data.product_ids.contains p.id)).map (fun p => p.id),
               created_at := now },
         { db with orders := db.orders ++
            [{ id := nextId (db.orders.map (fun o => o.id)),
               order_number := "ORD-" ++ hex,
               user_id := u.id,
               status := OrderStatus.pending,
               total_amount := ((db.products.filter
                 (fun p => data.product_ids.contains p.id)).map (fun p => p.price)).sum,
               shipping_address := data.shipping_address,
               notes := data.notes,
               product_ids := (db.products.filter
                 (fun p => data.product_ids.contains p.id)).map (fun p => p.id),
               created_at := now }] }) := by
      simp only [create_order]
      rw [if_neg (not_not_intro htester), if_neg hlen1,
        if_neg (fun hc => hc hleneq), if_neg (not_not_intro (by rw [hinactnil]; rfl))]
    exact ⟨_, _, hres, rfl⟩

/-- Witness for C3 (amended) at the fixture database: creating with an
empty list fails with the 422 validation error. -/
theorem create_order_validation_witness :
    fixtureDB.wf ∧ require_tester_ok uTester = true ∧
    create_order fixtureDB uTester ⟨none, none, []⟩ "FFFFFFFF" 3 =
      (.error .validationError, fixtureDB) :=
  ⟨by decide, by decide,
   (create_order_validation fixtureDB uTester (by decide) (by decide)).1 none none "FFFFFFFF" 3⟩

/-! ## Partial-update frame lemmas -/

/-- Frame of `update_product`: on success, supplied fields take the
supplied value, omitted fields keep their prior value, and nothing else in
the database changes. -/
lemma update_product_frame (db : DB) (u : UserRow) (pid : Nat)
    (data : ProductUpdateInput) (p p' : ProductRow) (db' : DB)
    (hfind : firstWhere (fun x => x.id == pid) db.products = some p)
    (h : update_product db u pid data = (.ok p', db')) :
    p' = { p with
           name := data.name.getD p.name,
           description := data.description.getD p.description,
           price := data.price.getD p.price,
           stock := data.stock.getD p.stock,
           sku := data.sku.getD p.sku,
           category_id := data.category_id.getD p.category_id,
           is_active := data.is_active.getD p.is_active } ∧
    db'.users = db.users ∧ db'.categories = db.categories ∧ db'.orders = db.orders ∧
    db'.products = updateFirst (fun x => x.id == pid) (fun _ => p') db.products := by
  simp only [update_product] at h
  split at h
  · exact absurd (congrArg Prod.fst h) (by simp)
  · split at h
    next heq => exact absurd (congrArg Prod.fst h) (by simp)
    next product heq =>
      rw [hfind] at heq
      injection heq with heq
      subst heq
      split at h
      · exact absurd (congrArg Prod.fst h) (by simp)
      · split at h
        · exact absurd (congrArg Prod.fst h) (by simp)
        · injection h with h1 h2
          injection h1 with h1
          subst h1
          subst h2
          exact ⟨rfl, rfl, rfl, rfl, rfl⟩

/-- The sku uniqueness re-check of `update_product` is only performed for
a supplied sku, and a supplied sku equal to the record's own current sku
never raises the conflict. -/
lemma update_product_self_sku (db : DB) (u : UserRow) (pid : Nat)
    (data : ProductUpdateInput) (p : ProductRow)
    (hwf : db.wf)
    (hfind : firstWhere (fun x => x.id == pid) db.products = some p)
    (hsku : data.sku = none ∨ data.sku = some p.sku) :
    update_product db u pid data ≠ (.error .conflictSku, db) := by
  have hp_mem : p ∈ db.products := List.mem_of_find?_eq_some hfind
  have hp_id : p.id = pid := by simpa using List.find?_some hfind
  intro hcontra
  simp only [update_product] at hcontra
  split at hcontra
  · exact absurd (congrArg Prod.fst hcontra) (by simp)
  · split at hcontra
    next heq => exact absurd (congrArg Prod.fst hcontra) (by simp)
    next product heq =>
      rw [hfind] at heq
      injection heq with heq
      subst heq
      split at hcontra
      next hc =>
        split at hc
        next s hs' =>
          rcases hsku with h0 | h0
          · rw [h0] at hs'
            cases hs'
          · rw [h0] at hs'
            injection hs' with hs''
            subst hs''
            split at hc
            next q hq =>
              have hq_mem : q ∈ db.products := List.mem_of_find?_eq_some hq
              have hq_sku : q.sku = p.sku := by simpa using List.find?_some hq
              have hqp : q = p :=
                List.inj_on_of_nodup_map hwf.2.2.2.2.2.2.1 hq_mem hp_mem hq_sku
              rw [hqp, hp_id] at hc
              simp at hc
            next hq => simp at hc
        next hs' => simp at hc
      next hc =>
        split at hcontra
        · exact absurd (congrArg Prod.fst hcontra) (by simp)
        · exact absurd (congrArg Prod.fst hcontra) (by simp)

/-- Frame of `update_user`: on success, supplied fields take the supplied
value, omitted fields keep their prior value, and nothing else in the
database changes. -/
lemma update_user_frame (db : DB) (cu : UserRow) (uid : Nat)
    (data : UserUpdateInput) (user user' : UserRow) (db' : DB)
    (hfind : firstWhere (fun x => x.id == uid) db.users = some user)
    (h : update_user db cu uid data = (.ok user', db')) :
    user' = { user with
              email := data.email.getD user.email,
              username := data.username.getD user.username,
              full_name := data.full_name.getD user.full_name,
              role := data.role.getD user.role,
              is_active := data.is_active.getD user.is_active } ∧
    db'.categories = db.categories ∧ db'.products = db.products ∧
    db'.orders = db.orders ∧
    db'.users = updateFirst (fun x => x.id == uid) (fun _ => user') db.users := by
  simp only [update_user] at h
  split at h
  · exact absurd (congrArg Prod.fst h) (by simp)
  · split at h
    next heq => exact absurd (congrArg Prod.fst h) (by simp)
    next target heq =>
      rw [hfind] at heq
      injection heq with heq
      subst heq
      split at h
      · exact absurd (congrArg Prod.fst h) (by simp)
      · split at h
        · exact absurd (congrArg Prod.fst h) (by simp)
        · injection h with h1 h2
          injection h1 with h1
          subst h1
          subst h2
          exact ⟨rfl, rfl, rfl, rfl, rfl⟩

/-- The email uniqueness re-check of `update_user` is only performed for a
supplied email, and a supplied email equal to the record's own current
email never raises the conflict. -/
lemma update_user_self_email (db : DB) (cu : UserRow) (uid : Nat)
    (data : UserUpdateInput) (user : UserRow)
    (hwf : db.wf)
    (hfind : firstWhere (fun x => x.id == uid) db.users = some user)
    (hemail : data.email = none ∨ data.email = some user.email) :
    update_user db cu uid data ≠ (.error .conflictEmail, db) := by
  have hu_mem : user ∈ db.users := List.mem_of_find?_eq_some hfind
  have hu_id : user.id = uid := by simpa using List.find?_some hfind
  intro hcontra
  simp only [update_user] at hcontra
  split at hcontra
  · exact absurd (congrArg Prod.fst hcontra) (by simp)
  · split at hcontra
    next heq => exact absurd (congrArg Prod.fst hcontra) (by simp)
    next target heq =>
      rw [hfind] at heq
      injection heq with heq
      subst heq
      split at hcontra
      next hc =>
        split at hc
        next e he =>
          rcases hemail with h0 | h0
          · rw [h0] at he
            cases he
          · rw [h0] at he
            injection he with he'
            subst he'
            split at hc
            next q hq =>
              have hq_mem : q ∈ db.users := List.mem_of_find?_eq_some hq
              have hq_email : q.email = user.email := by simpa using List.find?_some hq
              have hqp : q = user :=
                List.inj_on_of_nodup_map hwf.2.1 hq_mem hu_mem hq_email
              rw [hqp, hu_id] at hc
              simp at hc
            next hq => simp at hc
        next he => simp at hc
      next hc =>
        split at hcontra
        · exact absurd (congrArg Prod.fst hcontra) (by simp)
        · exact absurd (congrArg Prod.fst hcontra) (by simp)

/-- The username uniqueness re-check of `update_user` is only performed
for a supplied username, and a supplied username equal to the record's own
current username never raises the conflict. -/
lemma update_user_self_username (db : DB) (cu : UserRow) (uid : Nat)
    (data : UserUpdateInput) (user : UserRow)
    (hwf : db.wf)
    (hfind : firstWhere (fun x => x.id == uid) db.users = some user)
    (husr : data.username = none ∨ data.username = some user.username) :
    update_user db cu uid data ≠ (.error .conflictUsername, db) := by
  have hu_mem : user ∈ db.users := List.mem_of_find?_eq_some hfind
  have hu_id : user.id = uid := by simpa using List.find?_some hfind
  intro hcontra
  simp only [update_user] at hcontra
  split at hcontra
  · exact absurd (congrArg Prod.fst hcontra) (by simp)
  · split at hcontra
    next heq => exact absurd (congrArg Prod.fst hcontra) (by simp)
    next target heq =>
      rw [hfind] at heq
      injection heq with heq
      subst heq
      split at hcontra
      next hc => exact absurd (congrArg Prod.fst hcontra) (by simp)
      next hc =>
        split at hcontra
        next hc2 =>
          split at hc2
          next n hn =>
            rcases husr with h0 | h0
            · rw [h0] at hn
              cases hn
            · rw [h0] at hn
              injection hn with hn'
              subst hn'
              split at hc2
              next q hq =>
                have hq_mem : q ∈ db.users := List.mem_of_find?_eq_some hq
                have hq_usr : q.username = user.username := by
                  simpa using List.find?_some hq
                have hqp : q = user :=
                  List.inj_on_of_nodup_map hwf.2.2.1 hq_mem hu_mem hq_usr
                rw [hqp, hu_id] at hc2
                simp at hc2
              next hq => simp at hc2
          next hn => simp at hc2
        next hc2 => exact absurd (congrArg Prod.fst hcontra) (by simp)

/-- Frame of `update_category`: on success, supplied fields take the
supplied value, omitted fields keep their prior value, and nothing else in
the database changes. -/
lemma update_category_frame (db : DB) (cu : UserRow) (cid : Nat)
    (data : CategoryUpdateInput) (c c' : CategoryRow) (db' : DB)
    (hfind : firstWhere (fun x => x.id == cid) db.categories = some c)
    (h : update_category db cu cid data = (.ok c', db')) :
    c' = { c with
           name := data.name.getD c.name,
           description := data.description.getD c.description,
           is_active := data.is_active.getD c.is_active } ∧
    db'.users = db.users ∧ db'.products = db.products ∧ db'.orders = db.orders ∧
    db'.categories = updateFirst (fun x => x.id == cid) (fun _ => c') db.categories := by
  simp only [update_category] at h
  split at h
  · exact absurd (congrArg Prod.fst h) (by simp)
  · split at h
    next heq => exact absurd (congrArg Prod.fst h) (by simp)
    next target heq =>
      rw [hfind] at heq
      injection heq with heq
      subst heq
      split at h
      · exact absurd (congrArg Prod.fst h) (by simp)
      · injection h with h1 h2
        injection h1 with h1
        subst h1
        subst h2
        exact ⟨rfl, rfl, rfl, rfl, rfl⟩

/-- The name uniqueness re-check of `update_category` is only performed
for a supplied name, and a supplied name equal to the record's own current
name never raises the conflict. -/
lemma update_category_self_name (db : DB) (cu : UserRow) (cid : Nat)
    (data : CategoryUpdateInput) (c : CategoryRow)
    (hwf : db.wf)
    (hfind : firstWhere (fun x => x.id == cid) db.categories = some c)
    (hname : data.name = none ∨ data.name = some c.name) :
    update_category db cu cid data ≠ (.error .conflictCategoryName, db) := by
  have hc_mem : c ∈ db.categories := List.mem_of_find?_eq_some hfind
  have hc_id : c.id = cid := by simpa using List.find?_some hfind
  intro hcontra
  simp only [update_category] at hcontra
  split at hcontra
  · exact absurd (congrArg Prod.fst hcontra) (by simp)
  · split at hcontra
    next heq => exact absurd (congrArg Prod.fst hcontra) (by simp)
    next target heq =>
      rw [hfind] at heq
      injection heq with heq
      subst heq
      split at hcontra
      next hc =>
        split at hc
        next n hn =>
          rcases hname with h0 | h0
          · rw [h0] at hn
            cases hn
          · rw [h0] at hn
            injection hn with hn'
            subst hn'
            split at hc
            next q hq =>
              have hq_mem : q ∈ db.categories := List.mem_of_find?_eq_some hq
              have hq_name : q.name = c.name := by simpa using List.find?_some hq
              have hqp : q = c :=
                List.inj_on_of_nodup_map hwf.2.2.2.2.1 hq_mem hc_mem hq_name
              rw [hqp, hc_id] at hc
              simp at hc
            next hq => simp at hc
        next hn => simp at hc
      next hc => exact absurd (congrArg Prod.fst hcontra) (by simp)

/-- C7: partial-update frame for Users, Categories and Products — on every
successful partial update only the supplied fields change and every
omitted field keeps its prior value (and no other table changes); and the
uniqueness re-check (email/username/name/sku) runs only for supplied
fields and passes when the supplied value equals the record's own current
value. -/
theorem partial_update_frame_props :
    (∀ db cu pid data p p' db',
       firstWhere (fun x => x.id == pid) db.products = some p →
       update_product db cu pid data = (.ok p', db') →
       p' = { p with
              name := data.name.getD p.name,
              description := data.description.getD p.description,
              price := data.price.getD p.price,
              stock := data.stock.getD p.stock,
              sku := data.sku.getD p.sku,
              category_id := data.category_id.getD p.category_id,
              is_active := data.is_active.getD p.is_active } ∧
         db'.users = db.users ∧ db'.categories = db.categories ∧
         db'.orders = db.orders ∧
         db'.products = updateFirst (fun x => x.id == pid) (fun _ => p') db.products) ∧
    (∀ db cu pid data p, db.wf →
       firstWhere (fun x => x.id == pid) db.products = some p →
       data.sku = none ∨ data.sku = some p.sku →
       update_product db cu pid data ≠ (.error .conflictSku, db)) ∧
    (∀ db cu uid data user user' db',
       firstWhere (fun x => x.id == uid) db.users = some user →
       update_user db cu uid data = (.ok user', db') →
       user' = { user with
                 email := data.email.getD user.email,
                 username := data.username.getD user.username,
                 full_name := data.full_name.getD user.full_name,
                 role := data.role.getD user.role,
                 is_active := data.is_active.getD user.is_active } ∧
         db'.categories = db.categories ∧ db'.products = db.products ∧
         db'.orders = db.orders ∧
         db'.users = updateFirst (fun x => x.id == uid) (fun _ => user') db.users) ∧
    (∀ db cu uid data user, db.wf →
       firstWhere (fun x => x.id == uid) db.users = some user →
       data.email = none ∨ data.email = some user.email →
       update_user db cu uid data ≠ (.error .conflictEmail, db)) ∧
    (∀ db cu uid data user, db.wf →
       firstWhere (fun x => x.id == uid) db.users = some user →
       data.username = none ∨ data.username = some user.username →
       update_user db cu uid data ≠ (.error .conflictUsername, db)) ∧
    (∀ db cu cid data c c' db',
       firstWhere (fun x => x.id == cid) db.categories = some c →
       update_category db cu cid data = (.ok c', db') →
       c' = { c with
              name := data.name.getD c.name,
              description := data.description.getD c.description,
              is_active := data.is_active.getD c.is_active } ∧
         db'.users = db.users ∧ db'.products = db.products ∧
         db'.orders = db.orders ∧
         db'.categories = updateFirst (fun x => x.id == cid) (fun _ => c') db.categories) ∧
    (∀ db cu cid data c, db.wf →
       firstWhere (fun x => x.id == cid) db.categories = some c →
       data.name = none ∨ data.name = some c.name →
       update_category db cu cid data ≠ (.error .conflictCategoryName, db)) :=
  ⟨fun db cu pid data p p' db' => update_product_frame db cu pid data p p' db',
   fun db cu pid data p hwf hfind hsku =>
     update_product_self_sku db cu pid data p hwf hfind hsku,
   fun db cu uid data user user' db' => update_user_frame db cu uid data user user' db',
   fun db cu uid data user hwf hfind hemail =>
     update_user_self_email db cu uid data user hwf hfind hemail,
   fun db cu uid data user hwf hfind husr =>
     update_user_self_username db cu uid data user hwf hfind husr,
   fun db cu cid data c c' db' => update_category_frame db cu cid data c c' db',
   fun db cu cid data c hwf hfind hname =>
     update_category_self_name db cu cid data c hwf hfind hname⟩

/-- Witness for C7 at the fixture database: a price-only update of
product 1 succeeds and leaves every other table untouched; re-supplying
product 1's own sku does not raise the sku conflict; re-supplying the
tester's own email does not raise the email conflict. -/
theorem partial_update_frame_props_witness :
    fixtureDB.wf ∧
    firstWhere (fun x => x.id == 1) fixtureDB.products = some pBall ∧
    update_product fixtureDB uTester 1 ⟨none, none, some 900, none, none, none, none⟩ =
      (.ok { pBall with price := 900 },
       { fixtureDB with products := [{ pBall with price := 900 }, pBat] }) ∧
    ({ fixtureDB with products := [{ pBall with price := 900 }, pBat] } : DB).users =
      fixtureDB.users ∧
    update_product fixtureDB uTester 1 ⟨none, none, none, none, some "T-001", none, none⟩ ≠
      (.error .conflictSku, fixtureDB) ∧
    firstWhere (fun x => x.id == 2) fixtureDB.users = some uTester ∧
    update_user fixtureDB uAdmin 2 ⟨some "tester@qa-test.com", none, none, none, none⟩ ≠
      (.error .conflictEmail, fixtureDB) :=
  ⟨by decide, by decide, by decide,
   (partial_update_frame_props.1 fixtureDB uTester 1
     ⟨none, none, some 900, none, none, none, none⟩ pBall
     { pBall with price := 900 }
     { fixtureDB with products := [{ pBall with price := 900 }, pBat] }
     (by decide) (by decide)).2.1,
   partial_update_frame_props.2.1 fixtureDB uTester 1
     ⟨none, none, none, none, some "T-001", none, none⟩ pBall
     (by decide) (by decide) (Or.inr (by decide)),
   by decide,
   partial_update_frame_props.2.2.2.1 fixtureDB uAdmin 2
     ⟨some "tester@qa-test.com", none, none, none, none⟩ uTester
     (by decide) (by decide) (Or.inr (by decide))⟩

/-- C2: reset is idempotent in aggregate shape — from any prior state (so
in particular after any number of earlier resets), an admin reset reports
counts 3/5/20/10, leaves exactly 3 users, 5 categories, 20 products and
10 orders, and the three fixed credential pairs log in successfully
afterwards. -/
theorem reset_aggregate_shape (db : DB) (r : SeedRand) (u : UserRow)
    (hrole : u.role = UserRole.admin) :
    (reset_database r db u).1 =
      .ok { message := "Database reset successfully",
            users_created := 3, categories_created := 5,
            products_created := 20, orders_created := 10 } ∧
    (reset_database r db u).2.users.length = 3 ∧
    (reset_database r db u).2.categories.length = 5 ∧
    (reset_database r db u).2.products.length = 20 ∧
    (reset_database r db u).2.orders.length = 10 ∧
    login (reset_database r db u).2 "admin" "admin123" = .ok ⟨1, UserRole.admin⟩ ∧
    login (reset_database r db u).2 "tester" "tester123" = .ok ⟨2, UserRole.tester⟩ ∧
    login (reset_database r db u).2 "viewer" "viewer123" = .ok ⟨3, UserRole.viewer⟩ := by
  have hgate : require_admin_ok u = true := by simp [require_admin_ok, hrole]
  have hkey : reset_database r db u =
      (.ok { message := "Database reset successfully",
             users_created := 3, categories_created := 5,
             products_created := 20, orders_created := 10 },
       (seed_database r (clear_database db)).1) := by
    simp only [reset_database]
    rw [if_neg (not_not_intro hgate)]
    rfl
  rw [hkey]
  exact ⟨rfl, rfl, rfl, rfl, rfl, rfl, rfl, rfl⟩

/-- Witness for C2: an admin reset of the fixture database with one
concrete randomness source reports the 3/5/20/10 counts and the seeded
admin credentials log in. -/
theorem reset_aggregate_shape_witness :
    uAdmin.role = UserRole.admin ∧
    (reset_database ⟨fun _ => "d", fun _ => [0], fun _ => "AAAAAAAB",
        fun _ => "addr", fun _ => none⟩ fixtureDB uAdmin).1 =
      .ok { message := "Database reset successfully",
            users_created := 3, categories_created := 5,
            products_created := 20, orders_created := 10 } ∧
    login (reset_database ⟨fun _ => "d", fun _ => [0], fun _ => "AAAAAAAB",
        fun _ => "addr", fun _ => none⟩ fixtureDB uAdmin).2 "admin" "admin123" =
      .ok ⟨1, UserRole.admin⟩ :=
  ⟨rfl,
   (reset_aggregate_shape fixtureDB ⟨fun _ => "d", fun _ => [0], fun _ => "AAAAAAAB",
     fun _ => "addr", fun _ => none⟩ uAdmin rfl).1,
   (reset_aggregate_shape fixtureDB ⟨fun _ => "d", fun _ => [0], fun _ => "AAAAAAAB",
     fun _ => "addr", fun _ => none⟩ uAdmin rfl).2.2.2.2.2.1⟩
